import Mathlib

/-!
Verification of the image-upload / scene-generation front end (src/index.tsx).

The embedding models, from the source:
  * `fileToGenerativePart` (file → base64 payload + mime type), on top of a
    model of the platform's `FileReader.readAsDataURL` base64 data-URL output;
  * `handleFileSelect`, split at its `await` into a start step and the
    encode-completion continuation, so interleavings with other events are
    expressible;
  * `generateScene`, run atomically for a given remote-service behaviour,
    returning the new DOM/app state together with the ordered list of
    externally visible effects (alerts, loading toggles, the request sent);
  * `setLoading` and the mutable page state (files, base64, DOM flags).
Machine-level details (object URLs for the preview, console traces) carry no
data and are omitted.
-/

namespace Vgf

/-- A user-supplied file: declared media type and raw bytes (each < 256). -/
structure File where
  type : String
  bytes : List Nat
deriving Repr, DecidableEq

/-- A content part of a request or response: a text part or an inline-data
part carrying a media type and a base64 payload (mirrors the `{text}` /
`{inlineData:{mimeType,data}}` shapes in the source). -/
inductive Part where
  | text (s : String)
  | inlineData (mimeType : String) (data : String)
deriving Repr, DecidableEq

/-- `content` object of a candidate: an ordered list of parts. -/
structure Content where
  parts : List Part
deriving Repr, DecidableEq

/-- One candidate of the service response. -/
structure Candidate where
  content : Content
deriving Repr, DecidableEq

/-- The remote service's successful response: a list of candidates. -/
structure Response where
  candidates : List Candidate
deriving Repr, DecidableEq

/-- Behaviour of one `ai.models.generateContent` call: the promise resolves
with a response, or rejects with an error whose message is given. -/
inductive ServiceResult where
  | ok (resp : Response)
  | err (message : String)
deriving Repr, DecidableEq

/-- The request handed to `ai.models.generateContent` in `generateScene`. -/
structure GenRequest where
  model : String
  parts : List Part
  responseModalities : List String
deriving Repr, DecidableEq

/-- Externally visible effects of a run, in order of occurrence. -/
inductive Effect where
  | alert (msg : String)
  | setLoading (isLoading : Bool)
  | sendRequest (req : GenRequest)
deriving Repr, DecidableEq

/-- The page's mutable state: the two module-level variables of the source
(`uploadedFile`, `uploadedFileAsBase64`), the set of encodings still awaited
(one entry per `fileToGenerativePart` call whose `await` has not resumed),
and the DOM flags the handlers toggle. -/
structure AppState where
  uploadedFile : Option File
  uploadedFileAsBase64 : Option String
  pendingEncodes : List File
  imagePreviewHidden : Bool
  uploadPlaceholderHidden : Bool
  generateBtnDisabled : Bool
  generateBtnLabel : String
  loaderHidden : Bool
  resultImageSrc : String
  resultImageHidden : Bool
  resultPlaceholderHidden : Bool
deriving Repr, DecidableEq

/- ### Base64 (platform model) -/

/-- The base64 alphabet, indices 0–63. -/
def b64Alphabet : List Char :=
  "ABCDEFGHIJKLMNOPQRSTUVWXYZabcdefghijklmnopqrstuvwxyz0123456789+/".toList

/-- Character for a sextet value. -/
def b64Char (n : Nat) : Char := b64Alphabet.getD n 'A'

/-- Value of a base64 character (position in the alphabet). -/
def b64Index (c : Char) : Nat := b64Alphabet.indexOf c

/-- Standard base64 of a byte list, with `=` padding — the encoding
`FileReader.readAsDataURL` applies to the file's bytes. -/
def base64Encode : List Nat → List Char
  | [] => []
  | [a] => [b64Char (a / 4), b64Char (a % 4 * 16), '=', '=']
  | [a, b] => [b64Char (a / 4), b64Char (a % 4 * 16 + b / 16), b64Char (b % 16 * 4), '=']
  | a :: b :: c :: rest =>
      b64Char (a / 4) :: b64Char (a % 4 * 16 + b / 16) ::
      b64Char (b % 16 * 4 + c / 64) :: b64Char (c % 64) :: base64Encode rest

/-- Standard base64 decoding (inverse of `base64Encode`), used to state the
round-trip property of the text-safe encoding. -/
def base64Decode : List Char → List Nat
  | c1 :: c2 :: c3 :: c4 :: rest =>
      let n1 := b64Index c1
      let n2 := b64Index c2
      if c3 = '=' then [n1 * 4 + n2 / 16]
      else
        let n3 := b64Index c3
        if c4 = '=' then [n1 * 4 + n2 / 16, n2 % 16 * 16 + n3 / 4]
        else
          (n1 * 4 + n2 / 16) :: (n2 % 16 * 16 + n3 / 4) ::
          (n3 % 4 * 64 + b64Index c4) :: base64Decode rest
  | _ => []

/-- The `data:<mime>;base64,<payload>` URL shape used both by
`readAsDataURL` and by the result-image `src` assignment in the source. -/
def dataUrl (mime payload : String) : String :=
  "data:" ++ mime ++ ";base64," ++ payload

/-- Model of the platform's `FileReader.readAsDataURL` successful result: a
data URL whose payload is the base64 of the file's bytes. -/
def readAsDataURL (file : File) : String :=
  dataUrl file.type (String.mk (base64Encode file.bytes))

/-- JavaScript's `s.split(',')[1]`: the characters strictly between the
first comma and the following comma (or the end). -/
def jsSplitSecond (s : String) : String :=
  String.mk ((((s.data).dropWhile (fun c => c ≠ ',')).drop 1).takeWhile (fun c => c ≠ ','))

/-- JavaScript's `s.startsWith(p)`, on the characters. -/
def strStartsWith (s p : String) : Bool := p.data.isPrefixOf s.data

/-- Output of `fileToGenerativePart` in the source. -/
structure GenerativePart where
  mimeType : String
  data : String
deriving Repr, DecidableEq

/-- `fileToGenerativePart` (src/index.tsx lines 45–63): reads the file as a
data URL and strips the prefix with `split(',')[1]`; the mime type is the
file's declared type. -/
def fileToGenerativePart (file : File) : GenerativePart :=
  { mimeType := file.type
    data := jsSplitSecond (readAsDataURL file) }

/- ### The prompt constant and generateScene -/

/-- The fixed prompt template `PROMPT` (src/index.tsx lines 3–18). -/
def PROMPT : String :=
  "A cinematic scene inside a fast food restaurant at night.\n" ++
  "Foreground: a lonely table with burgers and fries, and a smartphone shown large and sharp on the table, clearly displaying the uploaded anime/game character image.\n" ++
  "A hand is reaching for food, symbolizing solitude.\n\n" ++
  "Midground: in the blurred background, a couple is sitting together and kiss.\n" ++
  "One of them is represented as a cosplayer version of the uploaded character:\n" ++
  "– If the uploaded character is humanoid, show accurate cosplay with hairstyle, costume, and signature props.\n" ++
  "– If the uploaded character is non-humanoid (mecha, creature, mascot, etc.), show a gijinka (humanized cosplay interpretation) that carries clear visual cues, costume colors, and props from the reference image (armor pieces, wings, ears, weapon, or iconic accessories).\n" ++
  "The other person is an ordinary human, and they are showing intimate affection (kissing, holding hands, or sharing food).\n\n" ++
  "Background: large glass windows, blurred neon city lights outside.\n" ++
  "Mood: melancholic, bittersweet, ironic, cinematic shallow depth of field.\n\n" ++
  "[reference: the uploaded image defines both the smartphone display and the cosplay design, with visible props emphasized]\n\n" ++
  "Image size is 585px 1024px"

/-- `setLoading` (src/index.tsx lines 158–168): toggles loader visibility,
the trigger's disabled flag and its label. -/
def setLoading (st : AppState) (isLoading : Bool) : AppState :=
  if isLoading then
    { st with loaderHidden := false, generateBtnDisabled := true,
              generateBtnLabel := "Generating..." }
  else
    { st with loaderHidden := true, generateBtnDisabled := false,
              generateBtnLabel := "Generate Scene" }

/-- The scan loop of src/index.tsx lines 127–137: the first part of the list
that has `inlineData`, as (mimeType, data); `none` when no part has it. -/
def findInline : List Part → Option (String × String)
  | [] => none
  | Part.text _ :: rest => findInline rest
  | Part.inlineData m d :: _ => some (m, d)

/-- Message of the error thrown at src/index.tsx line 140 when no inline
part was found. -/
def noImageMsg : String :=
  "No image was generated. The model may have refused the request."

/-- Modelled from the spec of the JS runtime: message of the TypeError
raised by `response.candidates[0].content` when `candidates` is empty (the
exact engine wording varies; only its difference from `noImageMsg`
matters here). -/
def emptyCandidatesMsg : String :=
  "Cannot read properties of undefined"

/-- The request built by src/index.tsx lines 107–124: the inline image part
(`imagePart`) then the text part (`textPart`) carrying `PROMPT`, for model
"gemini-2.5-flash-image-preview" with IMAGE and TEXT response modalities. -/
def builtRequest (file : File) (data : String) : GenRequest :=
  { model := "gemini-2.5-flash-image-preview"
    parts := [Part.inlineData file.type data, Part.text PROMPT]
    responseModalities := ["IMAGE", "TEXT"] }

/-- `generateScene` (src/index.tsx lines 95–151), run to completion for a
given behaviour `svc` of the single `generateContent` call. Returns the
state after the run and the ordered effects (alerts, loading toggles, the
request submitted). Mirrors the source: precondition check with JS
truthiness (`null` or `""` both fail), `setLoading(true)`, hiding both
result elements, building the two-part request, then either the scan of
the first candidate's parts or the catch handler, and `setLoading(false)`
in `finally`. -/
def generateScene (st : AppState) (svc : ServiceResult) : AppState × List Effect :=
  match st.uploadedFile, st.uploadedFileAsBase64 with
  | some file, some data =>
    if data = "" then (st, [Effect.alert "Please upload an image first."])
    else
      let st1 := setLoading st true
      let st2 := { st1 with resultPlaceholderHidden := true, resultImageHidden := true }
      let req : GenRequest := builtRequest file data
      match svc with
      | ServiceResult.err msg =>
          (setLoading { st2 with resultPlaceholderHidden := false } false,
           [Effect.setLoading true, Effect.sendRequest req,
            Effect.alert ("An error occurred: " ++ msg), Effect.setLoading false])
      | ServiceResult.ok resp =>
          match resp.candidates with
          | [] =>
              (setLoading { st2 with resultPlaceholderHidden := false } false,
               [Effect.setLoading true, Effect.sendRequest req,
                Effect.alert ("An error occurred: " ++ emptyCandidatesMsg),
                Effect.setLoading false])
          | cand :: _ =>
              match findInline cand.content.parts with
              | some (m, d) =>
                  (setLoading { st2 with resultImageSrc := dataUrl m d,
                                         resultImageHidden := false } false,
                   [Effect.setLoading true, Effect.sendRequest req, Effect.setLoading false])
              | none =>
                  (setLoading { st2 with resultPlaceholderHidden := false } false,
                   [Effect.setLoading true, Effect.sendRequest req,
                    Effect.alert ("An error occurred: " ++ noImageMsg),
                    Effect.setLoading false])
  | _, _ => (st, [Effect.alert "Please upload an image first."])

/- ### handleFileSelect, split at its await -/

/-- First half of `handleFileSelect` (src/index.tsx lines 70–87): validation,
storing the file, preview/placeholder toggles, enabling the trigger, and
starting the encode (recorded in `pendingEncodes`). Runs synchronously up
to the `await` on line 87. -/
def handleFileSelectStart (st : AppState) (file : Option File) : AppState × List Effect :=
  match file with
  | none => (st, [Effect.alert "Please select a valid image file."])
  | some f =>
      if strStartsWith f.type "image/" then
        ({ st with uploadedFile := some f
                   imagePreviewHidden := false
                   uploadPlaceholderHidden := true
                   generateBtnDisabled := false
                   pendingEncodes := st.pendingEncodes ++ [f] }, [])
      else
        (st, [Effect.alert "Please select a valid image file."])

/-- Continuation of `handleFileSelect` after its `await` (src/index.tsx
line 88): stores the encoding of the file captured at select time —
regardless of what `uploadedFile` holds by now. -/
def handleFileSelectFinish (st : AppState) (f : File) : AppState :=
  { st with uploadedFileAsBase64 := some (fileToGenerativePart f).data
            pendingEncodes := st.pendingEncodes.erase f }

/- ### Event-step machine -/

/-- An atomic scheduler step of the page: a user file selection (runs
`handleFileSelect` up to its await), the resumption of a pending encode, or
a generate click run to completion with service behaviour `svc`. -/
inductive Event where
  | select (file : Option File)
  | encodeDone (f : File)
  | generate (svc : ServiceResult)
deriving Repr, DecidableEq

/-- One step of the machine (state part). `encodeDone f` fires only when an
encode of `f` is actually pending. -/
def step (st : AppState) (e : Event) : AppState :=
  match e with
  | Event.select file => (handleFileSelectStart st file).1
  | Event.encodeDone f =>
      if f ∈ st.pendingEncodes then handleFileSelectFinish st f else st
  | Event.generate svc => (generateScene st svc).1

/-- Run a list of events from a state. -/
def runTrace (st : AppState) (es : List Event) : AppState :=
  es.foldl step st

/-- Modelled from the spec: the initial page state. The HTML document is not
in src/; per the spec the trigger is disabled until ready, the loader is
hidden, the upload placeholder and the result placeholder are shown, and no
file is selected. -/
def initState : AppState :=
  { uploadedFile := none
    uploadedFileAsBase64 := none
    pendingEncodes := []
    imagePreviewHidden := true
    uploadPlaceholderHidden := false
    generateBtnDisabled := true
    generateBtnLabel := "Generate Scene"
    loaderHidden := true
    resultImageSrc := ""
    resultImageHidden := true
    resultPlaceholderHidden := false }

/-- The claim C2's invariant, as stated by the spec: the stored encoding is
the encoding of the currently selected file. -/
def encodedMatchesSelected (st : AppState) : Prop :=
  ∀ f, st.uploadedFile = some f →
    st.uploadedFileAsBase64 = some (fileToGenerativePart f).data

/-- Whether any candidate of a response has an inline-data part (the scope
claim C1 asserts for the no-image failure). -/
def hasInlineAcrossCandidates (resp : Response) : Bool :=
  resp.candidates.any fun c =>
    c.content.parts.any fun p =>
      match p with
      | Part.inlineData _ _ => true
      | Part.text _ => false

/- ### Lemmas about the base64 model -/

theorem b64_index_char_fin : ∀ n : Fin 64, b64Index (b64Char n.val) = n.val := by decide

theorem b64_index_char (n : Nat) (h : n < 64) : b64Index (b64Char n) = n :=
  b64_index_char_fin ⟨n, h⟩

theorem b64Char_ne_pad_fin : ∀ n : Fin 64, b64Char n.val ≠ '=' := by decide

theorem b64Char_ne_pad (n : Nat) (h : n < 64) : b64Char n ≠ '=' :=
  b64Char_ne_pad_fin ⟨n, h⟩

theorem b64Char_ne_comma_fin : ∀ n : Fin 64, b64Char n.val ≠ ',' := by decide

theorem b64Char_ne_comma (n : Nat) : b64Char n ≠ ',' := by
  by_cases h : n < 64
  · exact b64Char_ne_comma_fin ⟨n, h⟩
  · have hlen : b64Alphabet.length = 64 := by decide
    have hd : b64Alphabet.getD n 'A' = 'A' := by
      apply List.getD_eq_default
      omega
    simp only [b64Char, hd]
    decide

theorem base64Decode_pad2 (c1 c2 c4 : Char) (rest : List Char) :
    base64Decode (c1 :: c2 :: '=' :: c4 :: rest) =
      [b64Index c1 * 4 + b64Index c2 / 16] := by
  simp [base64Decode]

theorem base64Decode_pad1 (c1 c2 c3 : Char) (rest : List Char) (h3 : c3 ≠ '=') :
    base64Decode (c1 :: c2 :: c3 :: '=' :: rest) =
      [b64Index c1 * 4 + b64Index c2 / 16,
       b64Index c2 % 16 * 16 + b64Index c3 / 4] := by
  simp [base64Decode, h3]

theorem base64Decode_cons4 (c1 c2 c3 c4 : Char) (rest : List Char)
    (h3 : c3 ≠ '=') (h4 : c4 ≠ '=') :
    base64Decode (c1 :: c2 :: c3 :: c4 :: rest) =
      (b64Index c1 * 4 + b64Index c2 / 16) ::
      (b64Index c2 % 16 * 16 + b64Index c3 / 4) ::
      (b64Index c3 % 4 * 64 + b64Index c4) :: base64Decode rest := by
  simp [base64Decode, h3, h4]

/-- Decoding inverts encoding on byte lists. -/
theorem base64_roundtrip : ∀ (bs : List Nat), (∀ b ∈ bs, b < 256) →
    base64Decode (base64Encode bs) = bs
  | [], _ => rfl
  | [a], h => by
    have ha : a < 256 := h a (by simp)
    simp only [base64Encode]
    rw [base64Decode_pad2]
    rw [b64_index_char _ (by omega), b64_index_char _ (by omega)]
    simp only [List.cons.injEq, and_true]
    omega
  | [a, b], h => by
    have ha : a < 256 := h a (by simp)
    have hb : b < 256 := h b (by simp)
    simp only [base64Encode]
    rw [base64Decode_pad1 _ _ _ _ (b64Char_ne_pad _ (by omega))]
    rw [b64_index_char _ (by omega), b64_index_char _ (by omega),
        b64_index_char _ (by omega)]
    simp only [List.cons.injEq, and_true]
    constructor <;> omega
  | a :: b :: c :: rest, h => by
    have ha : a < 256 := h a (by simp)
    have hb : b < 256 := h b (by simp)
    have hc : c < 256 := h c (by simp)
    have ih := base64_roundtrip rest (fun x hx => h x (by simp [hx]))
    simp only [base64Encode]
    rw [base64Decode_cons4 _ _ _ _ _ (b64Char_ne_pad _ (by omega))
          (b64Char_ne_pad _ (by omega))]
    rw [b64_index_char _ (by omega), b64_index_char _ (by omega),
        b64_index_char _ (by omega), b64_index_char _ (by omega)]
    rw [ih]
    simp only [List.cons.injEq, and_true]
    refine ⟨by omega, by omega, by omega⟩

/-- The encoder's output never contains a comma. -/
theorem base64Encode_no_comma : ∀ (bs : List Nat), ',' ∉ base64Encode bs
  | [] => by simp [base64Encode]
  | [a] => by
    simp only [base64Encode, List.mem_cons, List.not_mem_nil, or_false]
    push_neg
    exact ⟨(b64Char_ne_comma _).symm, (b64Char_ne_comma _).symm, by decide, by decide⟩
  | [a, b] => by
    simp only [base64Encode, List.mem_cons, List.not_mem_nil, or_false]
    push_neg
    exact ⟨(b64Char_ne_comma _).symm, (b64Char_ne_comma _).symm,
           (b64Char_ne_comma _).symm, by decide⟩
  | a :: b :: c :: rest => by
    have ih := base64Encode_no_comma rest
    simp only [base64Encode, List.mem_cons]
    push_neg
    exact ⟨(b64Char_ne_comma _).symm, (b64Char_ne_comma _).symm,
           (b64Char_ne_comma _).symm, (b64Char_ne_comma _).symm, ih⟩

theorem dropWhile_append_all {α : Type} (p : α → Bool) :
    ∀ (xs ys : List α), (∀ x ∈ xs, p x = true) →
      (xs ++ ys).dropWhile p = ys.dropWhile p
  | [], _, _ => rfl
  | x :: xs, ys, h => by
    simp only [List.cons_append, List.dropWhile_cons, h x (by simp), if_true]
    exact dropWhile_append_all p xs ys fun y hy => h y (by simp [hy])

theorem takeWhile_all {α : Type} (p : α → Bool) :
    ∀ (xs : List α), (∀ x ∈ xs, p x = true) → xs.takeWhile p = xs
  | [], _ => rfl
  | x :: xs, h => by
    simp only [List.takeWhile_cons, h x (by simp), if_true]
    rw [takeWhile_all p xs fun y hy => h y (by simp [hy])]

/-- `split(',')[1]` on a data URL whose mime type and payload are comma-free
recovers exactly the payload. -/
theorem jsSplitSecond_dataUrl (mime : String) (payload : List Char)
    (hm : ∀ ch ∈ mime.data, ch ≠ ',') (hp : ∀ ch ∈ payload, ch ≠ ',') :
    jsSplitSecond (dataUrl mime (String.mk payload)) = String.mk payload := by
  have hdata : (dataUrl mime (String.mk payload)).data =
      ("data:".data ++ mime.data ++ ";base64".data) ++ (',' :: payload) := by
    simp [dataUrl, String.data_append]
  unfold jsSplitSecond
  rw [hdata]
  rw [dropWhile_append_all _ _ _ ?hpre]
  case hpre =>
    intro x hx
    simp only [List.append_assoc, List.mem_append] at hx
    rcases hx with hx | hx | hx
    · revert x hx; decide
    · simpa using hm x hx
    · revert x hx; decide
  have h1 : List.dropWhile (fun c => decide (c ≠ ',')) (',' :: payload) = ',' :: payload := by
    rw [List.dropWhile_cons]
    simp
  rw [h1]
  have h2 : List.drop 1 (',' :: payload) = payload := rfl
  rw [h2, takeWhile_all _ _ fun y hy => by simpa using hp y hy]

/- ### Claim theorems -/

/-- C8: for every valid image file (byte values < 256, comma-free declared
media type), the encoder reports the file's declared media type, decoding
the produced payload yields exactly the original bytes, and after a
selection followed by the completion of its encode the stored Encoded Image
is exactly that payload. -/
theorem c8_encoding_roundtrip (st : AppState) (file : File)
    (hb : ∀ b ∈ file.bytes, b < 256)
    (hm : ∀ ch ∈ file.type.data, ch ≠ ',')
    (hi : strStartsWith file.type "image/" = true) :
    (fileToGenerativePart file).mimeType = file.type ∧
    base64Decode (fileToGenerativePart file).data.data = file.bytes ∧
    (runTrace st [Event.select (some file), Event.encodeDone file]).uploadedFileAsBase64
      = some (fileToGenerativePart file).data := by
  have hsplit : (fileToGenerativePart file).data = String.mk (base64Encode file.bytes) := by
    unfold fileToGenerativePart readAsDataURL
    exact jsSplitSecond_dataUrl _ _ hm
      (fun ch hch heq => (base64Encode_no_comma file.bytes) (heq ▸ hch))
  refine ⟨rfl, ?_, ?_⟩
  · rw [hsplit]
    exact base64_roundtrip file.bytes hb
  · simp [runTrace, step, handleFileSelectStart, hi, handleFileSelectFinish]

theorem c8_encoding_roundtrip_witness :
    (fileToGenerativePart ⟨"image/png", [77, 1, 2]⟩).mimeType = "image/png" ∧
    base64Decode (fileToGenerativePart ⟨"image/png", [77, 1, 2]⟩).data.data = [77, 1, 2] := by
  have h := c8_encoding_roundtrip initState ⟨"image/png", [77, 1, 2]⟩
    (by decide) (by decide) (by decide)
  exact ⟨h.1, h.2.1⟩

/-- C4: a missing candidate file, or one whose media type does not start
with "image/", triggers the validation alert and leaves the entire state
unchanged — in particular Selected Image, Encoded Image and the trigger's
disabled flag are untouched. -/
theorem c4_invalid_file_rejected (st : AppState) (file : Option File)
    (h : ∀ f, file = some f → strStartsWith f.type "image/" = false) :
    handleFileSelectStart st file =
      (st, [Effect.alert "Please select a valid image file."]) ∧
    step st (Event.select file) = st := by
  cases file with
  | none => exact ⟨rfl, rfl⟩
  | some f =>
    have hf := h f rfl
    refine ⟨?_, ?_⟩ <;> simp [step, handleFileSelectStart, hf]

theorem c4_invalid_file_rejected_witness :
    handleFileSelectStart initState (some ⟨"text/plain", [1]⟩) =
      (initState, [Effect.alert "Please select a valid image file."]) ∧
    initState.generateBtnDisabled = true :=
  ⟨(c4_invalid_file_rejected initState (some ⟨"text/plain", [1]⟩)
      (fun f hf => by cases hf; decide)).1, rfl⟩

/-- C5: with Selected Image or Encoded Image absent, `generateScene` only
alerts: the state is returned unchanged and no request effect occurs. -/
theorem c5_missing_precondition_no_request (st : AppState) (svc : ServiceResult)
    (h : st.uploadedFile = none ∨ st.uploadedFileAsBase64 = none) :
    generateScene st svc = (st, [Effect.alert "Please upload an image first."]) ∧
    ∀ req, Effect.sendRequest req ∉ (generateScene st svc).2 := by
  have heq : generateScene st svc = (st, [Effect.alert "Please upload an image first."]) := by
    rcases h with h | h
    · cases hd : st.uploadedFileAsBase64 <;> simp [generateScene, h, hd]
    · cases hf : st.uploadedFile <;> simp [generateScene, h, hf]
  refine ⟨heq, fun req => ?_⟩
  rw [heq]
  simp

theorem c5_missing_precondition_no_request_witness :
    generateScene initState (ServiceResult.err "network down") =
      (initState, [Effect.alert "Please upload an image first."]) :=
  (c5_missing_precondition_no_request initState (ServiceResult.err "network down")
    (Or.inl rfl)).1

/-- C10: a `generateScene` run never changes Selected Image, Encoded Image
or the pending-encode bookkeeping, whatever the service does. -/
theorem c10_generation_preserves_images (st : AppState) (svc : ServiceResult) :
    (generateScene st svc).1.uploadedFile = st.uploadedFile ∧
    (generateScene st svc).1.uploadedFileAsBase64 = st.uploadedFileAsBase64 ∧
    (generateScene st svc).1.pendingEncodes = st.pendingEncodes := by
  unfold generateScene
  split
  · split
    · simp
    · cases svc with
      | err m => simp [setLoading]
      | ok resp =>
        rcases hc : resp.candidates with _ | ⟨cand, rest⟩
        · simp [hc, setLoading]
        · rcases hfi : findInline cand.content.parts with _ | ⟨m, d⟩ <;>
            simp [hc, hfi, setLoading]
  · simp

/-- A state with a selected and encoded image ("AA==" encodes the single
byte 0), used to instantiate the generation theorems. -/
def goodState : AppState :=
  { initState with uploadedFile := some ⟨"image/png", [0]⟩
                   uploadedFileAsBase64 := some "AA==" }

/-- The message of the error the catch block of `generateScene` receives,
one per failing path of src/index.tsx lines 103–146: the rejection's own
message for a rejected call, the TypeError message when the response has no
candidates, the no-image message when the first candidate has no inline
part; `none` when the run succeeds. -/
def failureMsg (svc : ServiceResult) : Option String :=
  match svc with
  | ServiceResult.err m => some m
  | ServiceResult.ok resp =>
    match resp.candidates with
    | [] => some emptyCandidatesMsg
    | cand :: _ =>
      match findInline cand.content.parts with
      | none => some noImageMsg
      | some _ => none

/-- C9: whenever the preconditions pass, the request submitted to the
service is exactly the two-part `builtRequest`: the inline-data part with
the selected file's media type and the stored payload, then the text part
with the constant `PROMPT`; and no other request is ever submitted. -/
theorem c9_request_is_two_fixed_parts (st : AppState) (file : File) (data : String)
    (svc : ServiceResult)
    (h1 : st.uploadedFile = some file) (h2 : st.uploadedFileAsBase64 = some data)
    (h3 : data ≠ "") :
    Effect.sendRequest (builtRequest file data) ∈ (generateScene st svc).2 ∧
    ∀ req, Effect.sendRequest req ∈ (generateScene st svc).2 →
      req = builtRequest file data := by
  cases svc with
  | err m => simp [generateScene, h1, h2, h3]
  | ok resp =>
    rcases hc : resp.candidates with _ | ⟨cand, rest⟩
    · simp [generateScene, h1, h2, h3, hc]
    · rcases hfi : findInline cand.content.parts with _ | ⟨⟨m, d⟩⟩ <;>
        simp [generateScene, h1, h2, h3, hc, hfi]

theorem c9_request_is_two_fixed_parts_witness :
    Effect.sendRequest (builtRequest ⟨"image/png", [0]⟩ "AA==") ∈
      (generateScene goodState (ServiceResult.err "boom")).2 :=
  (c9_request_is_two_fixed_parts goodState ⟨"image/png", [0]⟩ "AA=="
    (ServiceResult.err "boom") rfl rfl (by decide)).1

/-- C7: every precondition-passing run first enters Loading (the
`setLoading true` effect precedes the request effect, and entering Loading
shows the loader, disables the trigger and sets the working label), and the
run's last effect is `setLoading false`, leaving a final state with the
loader hidden, the trigger enabled and the original label — for success and
for every failure alike. -/
theorem c7_loading_entered_and_left (st : AppState) (file : File) (data : String)
    (svc : ServiceResult)
    (h1 : st.uploadedFile = some file) (h2 : st.uploadedFileAsBase64 = some data)
    (h3 : data ≠ "") :
    (∃ mid,
      (generateScene st svc).2 =
        Effect.setLoading true :: Effect.sendRequest (builtRequest file data) ::
          (mid ++ [Effect.setLoading false])) ∧
    (setLoading st true).loaderHidden = false ∧
    (setLoading st true).generateBtnDisabled = true ∧
    (setLoading st true).generateBtnLabel = "Generating..." ∧
    (generateScene st svc).1.loaderHidden = true ∧
    (generateScene st svc).1.generateBtnDisabled = false ∧
    (generateScene st svc).1.generateBtnLabel = "Generate Scene" := by
  cases svc with
  | err m =>
    refine ⟨⟨[Effect.alert ("An error occurred: " ++ m)], ?_⟩, ?_, ?_, ?_, ?_, ?_, ?_⟩ <;>
      simp [generateScene, h1, h2, h3, setLoading]
  | ok resp =>
    rcases hc : resp.candidates with _ | ⟨cand, rest⟩
    · refine ⟨⟨[Effect.alert ("An error occurred: " ++ emptyCandidatesMsg)], ?_⟩,
        ?_, ?_, ?_, ?_, ?_, ?_⟩ <;>
        simp [generateScene, h1, h2, h3, hc, setLoading]
    · rcases hfi : findInline cand.content.parts with _ | ⟨⟨m, d⟩⟩
      · refine ⟨⟨[Effect.alert ("An error occurred: " ++ noImageMsg)], ?_⟩,
          ?_, ?_, ?_, ?_, ?_, ?_⟩ <;>
          simp [generateScene, h1, h2, h3, hc, hfi, setLoading]
      · refine ⟨⟨[], ?_⟩, ?_, ?_, ?_, ?_, ?_, ?_⟩ <;>
          simp [generateScene, h1, h2, h3, hc, hfi, setLoading]

theorem c7_loading_entered_and_left_witness :
    (generateScene goodState (ServiceResult.err "boom")).1.loaderHidden = true ∧
    (generateScene goodState (ServiceResult.err "boom")).1.generateBtnDisabled = false :=
  ⟨(c7_loading_entered_and_left goodState ⟨"image/png", [0]⟩ "AA=="
      (ServiceResult.err "boom") rfl rfl (by decide)).2.2.2.2.1,
   (c7_loading_entered_and_left goodState ⟨"image/png", [0]⟩ "AA=="
      (ServiceResult.err "boom") rfl rfl (by decide)).2.2.2.2.2.1⟩

/-- C3: when the first candidate's parts are a text part followed by an
inline-image part, the displayed result is the data URL built from that
inline part's media type and payload, the result image is shown, and no
alert occurs (the text part is ignored). -/
theorem c3_first_inline_part_displayed (st : AppState) (file : File) (data : String)
    (t m d : String) (rest : List Part) (cand : Candidate) (cs : List Candidate)
    (h1 : st.uploadedFile = some file) (h2 : st.uploadedFileAsBase64 = some data)
    (h3 : data ≠ "")
    (hp : cand.content.parts = Part.text t :: Part.inlineData m d :: rest) :
    (generateScene st (ServiceResult.ok ⟨cand :: cs⟩)).1.resultImageSrc = dataUrl m d ∧
    (generateScene st (ServiceResult.ok ⟨cand :: cs⟩)).1.resultImageHidden = false ∧
    ∀ msg, Effect.alert msg ∉ (generateScene st (ServiceResult.ok ⟨cand :: cs⟩)).2 := by
  have hfi : findInline cand.content.parts = some (m, d) := by
    rw [hp]
    simp [findInline]
  simp [generateScene, h1, h2, h3, hfi, setLoading]

theorem c3_first_inline_part_displayed_witness :
    (generateScene goodState (ServiceResult.ok
        ⟨[⟨⟨[Part.text "here you go", Part.inlineData "image/jpeg" "Zm9v"]⟩⟩]⟩)).1.resultImageSrc
      = dataUrl "image/jpeg" "Zm9v" :=
  (c3_first_inline_part_displayed goodState ⟨"image/png", [0]⟩ "AA=="
    "here you go" "image/jpeg" "Zm9v" [] ⟨⟨[Part.text "here you go",
      Part.inlineData "image/jpeg" "Zm9v"]⟩⟩ []
    rfl rfl (by decide) rfl).1

/-- C6: on every failing run that passed the preconditions — rejected call,
response without candidates, or no inline part in the first candidate — an
alert is raised whose text is "An error occurred: " followed by the
caught error's message, the result placeholder is shown again, and the
result image stays hidden. -/
theorem c6_failure_alert_and_placeholder (st : AppState) (file : File) (data : String)
    (svc : ServiceResult) (m : String)
    (h1 : st.uploadedFile = some file) (h2 : st.uploadedFileAsBase64 = some data)
    (h3 : data ≠ "") (hf : failureMsg svc = some m) :
    Effect.alert ("An error occurred: " ++ m) ∈ (generateScene st svc).2 ∧
    (generateScene st svc).1.resultPlaceholderHidden = false ∧
    (generateScene st svc).1.resultImageHidden = true := by
  cases svc with
  | err msg =>
    simp only [failureMsg, Option.some.injEq] at hf
    subst hf
    simp [generateScene, h1, h2, h3, setLoading]
  | ok resp =>
    rcases hc : resp.candidates with _ | ⟨cand, rest⟩
    · simp only [failureMsg, hc, Option.some.injEq] at hf
      subst hf
      simp [generateScene, h1, h2, h3, hc, setLoading]
    · rcases hfi : findInline cand.content.parts with _ | ⟨⟨mm, dd⟩⟩
      · simp only [failureMsg, hc, hfi, Option.some.injEq] at hf
        subst hf
        simp [generateScene, h1, h2, h3, hc, hfi, setLoading]
      · simp [failureMsg, hc, hfi] at hf

theorem c6_failure_alert_and_placeholder_witness :
    Effect.alert ("An error occurred: " ++ "quota exceeded") ∈
      (generateScene goodState (ServiceResult.err "quota exceeded")).2 ∧
    (generateScene goodState (ServiceResult.err "quota exceeded")).1.resultPlaceholderHidden
      = false :=
  ⟨(c6_failure_alert_and_placeholder goodState ⟨"image/png", [0]⟩ "AA=="
      (ServiceResult.err "quota exceeded") "quota exceeded" rfl rfl (by decide) rfl).1,
   (c6_failure_alert_and_placeholder goodState ⟨"image/png", [0]⟩ "AA=="
      (ServiceResult.err "quota exceeded") "quota exceeded" rfl rfl (by decide) rfl).2.1⟩

/-- C1 counterexample: a response whose first candidate is text-only but
whose second candidate carries an inline image still raises the
GenerationError alert — the no-image failure is decided by the first
candidate alone, not by "all parts across every candidate". -/
theorem c1_counterexample :
    hasInlineAcrossCandidates
        ⟨[⟨⟨[Part.text "refused"]⟩⟩, ⟨⟨[Part.inlineData "image/png" "AA=="]⟩⟩]⟩ = true ∧
    Effect.alert ("An error occurred: " ++ noImageMsg) ∈
      (generateScene goodState (ServiceResult.ok
        ⟨[⟨⟨[Part.text "refused"]⟩⟩, ⟨⟨[Part.inlineData "image/png" "AA=="]⟩⟩]⟩)).2 := by
  decide

/-- C1 amended: with the preconditions passing, the GenerationError alert
occurs iff the response has at least one candidate and its first
candidate's parts contain no inline-data part. Later candidates are never
examined, and a response with no candidates at all fails with a different
(TypeError) message. -/
theorem c1_amended_first_candidate_scan (st : AppState) (file : File) (data : String)
    (resp : Response)
    (h1 : st.uploadedFile = some file) (h2 : st.uploadedFileAsBase64 = some data)
    (h3 : data ≠ "") :
    (Effect.alert ("An error occurred: " ++ noImageMsg) ∈
        (generateScene st (ServiceResult.ok resp)).2)
      ↔ (∃ cand cs, resp.candidates = cand :: cs ∧
           findInline cand.content.parts = none) := by
  have hne : ("An error occurred: " ++ noImageMsg) ≠
      ("An error occurred: " ++ emptyCandidatesMsg) := by decide
  rcases hc : resp.candidates with _ | ⟨cand, rest⟩
  · simp [generateScene, h1, h2, h3, hc, hne]
  · rcases hfi : findInline cand.content.parts with _ | ⟨⟨m, d⟩⟩
    · simp [generateScene, h1, h2, h3, hc, hfi]
    · simp [generateScene, h1, h2, h3, hc, hfi]

theorem c1_amended_first_candidate_scan_witness :
    (Effect.alert ("An error occurred: " ++ noImageMsg) ∈
        (generateScene goodState (ServiceResult.ok ⟨[⟨⟨[Part.text "no"]⟩⟩]⟩)).2)
      ↔ (∃ cand cs, ([⟨⟨[Part.text "no"]⟩⟩] : List Candidate) = cand :: cs ∧
           findInline cand.content.parts = none) :=
  c1_amended_first_candidate_scan goodState ⟨"image/png", [0]⟩ "AA=="
    ⟨[⟨⟨[Part.text "no"]⟩⟩]⟩ rfl rfl (by decide)

/-- The reachable state used in the C2 counterexample: a first image
(byte 0) selected and encoded, then a second image (byte 1) selected, its
encode still pending. -/
def staleState : AppState :=
  runTrace initState
    [Event.select (some ⟨"image/png", [0]⟩),
     Event.encodeDone ⟨"image/png", [0]⟩,
     Event.select (some ⟨"image/png", [1]⟩)]

/-- C2 counterexample: on `staleState` the trigger is enabled and a generate
click submits a request carrying the stale first encoding "AA==" together
with the second file's media type, although the second file's encoding is
"AQ==" — the claimed invariant fails at a point where generation can be
triggered. -/
theorem c2_counterexample :
    staleState.uploadedFile = some ⟨"image/png", [1]⟩ ∧
    staleState.generateBtnDisabled = false ∧
    staleState.uploadedFileAsBase64 = some "AA==" ∧
    (fileToGenerativePart ⟨"image/png", [1]⟩).data = "AQ==" ∧
    (generateScene staleState (ServiceResult.err "e")).2 =
      [Effect.setLoading true,
       Effect.sendRequest (builtRequest ⟨"image/png", [1]⟩ "AA=="),
       Effect.alert ("An error occurred: " ++ "e"), Effect.setLoading false] ∧
    ¬ encodedMatchesSelected staleState := by
  refine ⟨by decide, by decide, by decide, by decide, by rfl, ?_⟩
  intro hinv
  have h := hinv ⟨"image/png", [1]⟩ (by decide)
  rw [show staleState.uploadedFileAsBase64 = some "AA==" from by decide,
      show (fileToGenerativePart ⟨"image/png", [1]⟩).data = "AQ==" from by decide] at h
  exact absurd h (by decide)

/-- C2 amended: the invariant does hold at encode-completion time — when the
pending encode of the currently selected file resumes, the stored Encoded
Image becomes exactly that file's encoding and the selection is unchanged.
In the window between selecting a new file and that resumption, however,
the trigger is already enabled and a generation started then consumes the
previous selection's encoding (see the counterexample). -/
theorem c2_amended_consistent_after_encode (st : AppState) (f : File)
    (h1 : st.uploadedFile = some f) (h2 : f ∈ st.pendingEncodes) :
    encodedMatchesSelected (step st (Event.encodeDone f)) := by
  intro g hg
  have hstep : step st (Event.encodeDone f) = handleFileSelectFinish st f := by
    simp [step, h2]
  rw [hstep] at hg ⊢
  simp only [handleFileSelectFinish] at hg ⊢
  rw [h1] at hg
  cases hg
  rfl

theorem c2_amended_consistent_after_encode_witness :
    encodedMatchesSelected
      (step { initState with uploadedFile := some ⟨"image/png", [0]⟩
                             pendingEncodes := [⟨"image/png", [0]⟩] }
        (Event.encodeDone ⟨"image/png", [0]⟩)) :=
  c2_amended_consistent_after_encode
    { initState with uploadedFile := some ⟨"image/png", [0]⟩
                     pendingEncodes := [⟨"image/png", [0]⟩] }
    ⟨"image/png", [0]⟩ rfl (by decide)

end Vgf
